import Mathlib

set_option maxRecDepth 100000

/-!
Verification of the RAG customer-support chatbot workflow
(classify → route → respond-or-escalate) and its request boundary.

Shallow embedding of `src/langgraph_workflow.py`, `src/rag_chain.py` and
`src/api/routes.py`. External collaborators (the classification model, the
retriever and the generation model) are modelled as function parameters in
an `Env`; a call that may raise is modelled as `Except String`. The
retriever additionally receives a call index `n : Nat` so that a
nondeterministic (call-dependent) retriever can be expressed; a
deterministic retriever is one that ignores the index.
-/

namespace RAG

/-- A metadata value stored in the turn-result metadata dictionary
(Python `dict` values: strings, booleans, lists of chunk metadata,
nested dicts). Chunk metadata (`doc.metadata` in Python) is opaque to
the workflow and modelled as a `String`. -/
inductive MetaVal where
  | str (s : String)
  | bool (b : Bool)
  | strList (l : List String)
  | map (m : List (String × MetaVal))

/-- A Python dict of metadata entries, as an insertion-ordered
association list. -/
abbrev MetaDict := List (String × MetaVal)

/-- Python dict lookup `d[k]` / `d.get(k)`. -/
def dictGet (m : MetaDict) (k : String) : Option MetaVal :=
  match m with
  | [] => none
  | (k', v) :: rest => if k' = k then some v else dictGet rest k

/-- Python dict assignment `d[k] = v`: replace an existing key in place,
otherwise append (insertion order preserved). -/
def dictSet (m : MetaDict) (k : String) (v : MetaVal) : MetaDict :=
  match m with
  | [] => [(k, v)]
  | (k', v') :: rest =>
      if k' = k then (k, v) :: rest else (k', v') :: dictSet rest k v

/-- A retrieved document: `page_content` plus opaque `metadata`
(from `langchain` `Document`). -/
structure Doc where
  page_content : String
  metadata : String
deriving DecidableEq

/-- `GraphState` from `langgraph_workflow.py`: the state schema threaded
through the graph (`query`, `category`, `answer`, `metadata`). -/
structure GraphState where
  query : String
  category : String
  answer : String
  metadata : MetaDict

/-- The external collaborators of the workflow. `classify` is
`self.classifier_llm.invoke` composed with `.content`; `retrieve` is
`self.retriever.get_relevant_documents` with an explicit call index;
`generate` is the generation model applied to the rendered prompt
(`self.llm` followed by `StrOutputParser`). An `Except.error` models a
raised exception, carrying `str(e)`. -/
structure Env where
  classify : String → Except String String
  retrieve : Nat → String → Except String (List Doc)
  generate : String → Except String String

/-- Python `str.lower()`: lowercase every character. -/
def pyLower (s : String) : String := String.mk (s.data.map Char.toLower)

/-- Python `str.strip()`: drop leading and trailing whitespace. -/
def pyStrip (s : String) : String :=
  String.mk
    (((s.data.dropWhile Char.isWhitespace).reverse.dropWhile
        Char.isWhitespace).reverse)

/-- The classification prompt f-string from `classifier_node`. -/
def classificationPrompt (query : String) : String :=
  "Classify the following customer query into ONE category only.\n        \nCategories:\n- \"products\": Questions about product features, prices, specifications, warranties, or comparisons\n- \"returns\": Questions about return policy, refund process, or exchange procedures\n- \"general\": General support questions, contact information, or business hours\n- \"unknown\": Queries that are out of scope, unclear, or not related to our products/services\n\nQuery: " ++ query ++ "\n\nRespond with ONLY the category name (products, returns, general, or unknown). No explanation."

/-- `valid_categories` from `classifier_node`. -/
def validCategories : List String := ["products", "returns", "general", "unknown"]

/-- The RAG prompt template from `RAGChain.__init__`, rendered with the
given `context` and `question` substituted. -/
def ragPrompt (context question : String) : String :=
  "You are a helpful customer support assistant for TechGear, an electronics company.\nUse the following context to answer the customer's question accurately and concisely.\nIf the answer is not in the context, politely say you don't have that information.\n\nContext:\n" ++ context ++ "\n\nQuestion: " ++ question ++ "\n\nAnswer:"

/-- `format_docs` from `RAGChain._build_chain`: join the retrieved
documents' page contents with blank lines. -/
def format_docs (docs : List Doc) : String :=
  String.intercalate "\n\n" (docs.map (·.page_content))

/-- `RAGChain.invoke` / the chain built by `_build_chain`: retrieve (one
retriever call, consuming call index `n`), format the docs into the
context, render the prompt and invoke the generation model. Returns the
answer together with the next free call index. -/
def chain_invoke (env : Env) (n : Nat) (query : String) :
    Except String (String × Nat) :=
  match env.retrieve n query with
  | .error e => .error e
  | .ok docs =>
      match env.generate (ragPrompt (format_docs docs) query) with
      | .error e => .error e
      | .ok answer => .ok (answer, n + 1)

/-- The dictionary returned by `RAGChain.get_context_and_answer`. -/
structure GCAResult where
  query : String
  context : String
  answer : String
  sources : List String

/-- `RAGChain.get_context_and_answer`: retrieve documents (first
retriever call, index `n`), join their texts as `context`, then call
`self.invoke(query)` — which performs its own, second retrieval (index
`n + 1`) — and report the first call's docs as `sources`. -/
def get_context_and_answer (env : Env) (n : Nat) (query : String) :
    Except String (GCAResult × Nat) :=
  match env.retrieve n query with
  | .error e => .error e
  | .ok docs =>
      match chain_invoke env (n + 1) query with
      | .error e => .error e
      | .ok (answer, n2) =>
          .ok ({ query := query,
                 context := String.intercalate "\n\n" (docs.map (·.page_content)),
                 answer := answer,
                 sources := docs.map (·.metadata) }, n2)

/-- `RAGWorkflow.classifier_node`: invoke the classifier model on the
classification prompt; on success normalize (`strip().lower()`) and
validate membership in `valid_categories`, collapsing anything else to
`"unknown"`, with `metadata = {"classifier": "success"}`; on a raised
exception force `"unknown"` with
`metadata = {"classifier": "error", "error": str(e)}`. -/
def classifier_node (env : Env) (state : GraphState) : GraphState :=
  match env.classify (classificationPrompt state.query) with
  | .ok content =>
      let category := pyLower (pyStrip content)
      let category := if category ∈ validCategories then category else "unknown"
      { state with category := category,
                   metadata := [("classifier", .str "success")] }
  | .error e =>
      { state with category := "unknown",
                   metadata := [("classifier", .str "error"), ("error", .str e)] }

/-- The fixed apologetic fallback answer from `rag_responder_node`. -/
def fallbackAnswer : String :=
  "I apologize, but I'm having trouble accessing the information right now. Please try again or contact support."

/-- `RAGWorkflow.rag_responder_node`: call
`rag_chain.get_context_and_answer`; on success set the answer and
`metadata["rag"] = {"sources": ..., "context_used": True}`; on a raised
exception set the fallback answer and `metadata["rag"] = {"error": str(e)}`.
Also returns the next free retriever call index. -/
def rag_responder_node (env : Env) (n : Nat) (state : GraphState) :
    GraphState × Nat :=
  match get_context_and_answer env n state.query with
  | .ok (result, n2) =>
      ({ state with
           answer := result.answer,
           metadata := dictSet state.metadata "rag"
             (.map [("sources", .strList result.sources),
                    ("context_used", .bool true)]) }, n2)
  | .error e =>
      ({ state with
           answer := fallbackAnswer,
           metadata := dictSet state.metadata "rag"
             (.map [("error", .str e)]) }, n)

/-- The canned message for category `"general"` in `escalation_node`. -/
def generalEscalationMessage : String :=
  "For general inquiries and support:\n\n📧 Email: support@techgear.com\n⏰ Support Hours: Monday-Saturday, 9AM-6PM IST\n\nOur team will be happy to assist you with your questions!"

/-- The canned message for every other escalated category in
`escalation_node`. -/
def genericEscalationMessage : String :=
  "I apologize, but I'm unable to assist with that specific request.\n\nFor personalized support, please contact our team:\n📧 Email: support@techgear.com\n⏰ Support Hours: Monday-Saturday, 9AM-6PM IST\n\nOur support team will be happy to help you!"

/-- `RAGWorkflow.escalation_node`: pick one of the two fixed messages by
category (`state.get("category", "unknown")`; the field is always
present in the state schema) and set `metadata["escalation"] = True`. -/
def escalation_node (state : GraphState) : GraphState :=
  let msg := if state.category = "general" then generalEscalationMessage
             else genericEscalationMessage
  { state with answer := msg,
               metadata := dictSet state.metadata "escalation" (.bool true) }

/-- The two successor nodes of the conditional edge out of `classifier`. -/
inductive RouteTarget where
  | rag_responder
  | escalation
deriving DecidableEq

/-- `RAGWorkflow.route_query`: route `"products"` and `"returns"` to the
RAG responder, everything else to escalation. -/
def route_query (state : GraphState) : RouteTarget :=
  if state.category ∈ ["products", "returns"] then .rag_responder
  else .escalation

/-- The initial state built at the top of `RAGWorkflow.invoke`. -/
def initialState (query : String) : GraphState :=
  { query := query, category := "", answer := "", metadata := [] }

/-- `RAGWorkflow.invoke`: build the initial state, run `classifier_node`,
route, run exactly one of `rag_responder_node` / `escalation_node`
(both edges lead to `END`). Returns the final state and the next free
retriever call index. -/
def invoke (env : Env) (n : Nat) (query : String) : GraphState × Nat :=
  let s1 := classifier_node env (initialState query)
  match route_query s1 with
  | .rag_responder => rag_responder_node env n s1
  | .escalation => (escalation_node s1, n)

/-! ### Request boundary (`src/api/routes.py`) -/

/-- `ChatRequest`: `query: str` with `min_length=1`. -/
structure ChatRequest where
  query : String

/-- `ChatResponse`: the response envelope built by the `chat` handler. -/
structure ChatResponse where
  query : String
  answer : String
  category : Option String
  metadata : Option MetaDict

/-- The caller-visible outcome of a request: a pydantic validation
error (client-error status, produced by the framework before the
handler runs), an `HTTPException` with a status code and detail, or a
successful `ChatResponse`. -/
inductive ChatOutcome where
  | validationError
  | httpError (status : Nat) (detail : String)
  | ok (resp : ChatResponse)

/-- Pydantic validation of the request body: the `query` field must be
present and satisfy `min_length=1`. -/
def validateChatRequest (rawQuery : Option String) : Option ChatRequest :=
  match rawQuery with
  | none => none
  | some q => if 1 ≤ q.length then some { query := q } else none

/-- The body of the `chat` handler from `routes.py`: 503 when the
module-level `workflow` is `None`; otherwise invoke the workflow and
wrap the result, turning any escaping exception into a 500 carrying its
description. The workflow is a parameter (`String → Except String
GraphState`) because `routes.py` calls it through a mutable module
variable. -/
def chat (workflow : Option (String → Except String GraphState))
    (req : ChatRequest) : ChatOutcome :=
  match workflow with
  | none =>
      .httpError 503 "Chatbot service is not initialized. Please try again later."
  | some wf =>
      match wf req.query with
      | .ok result =>
          .ok { query := result.query, answer := result.answer,
                category := some result.category,
                metadata := some result.metadata }
      | .error e => .httpError 500 ("Error processing query: " ++ e)

/-- The full request path: framework validation first, then the handler. -/
def chatEndpoint (workflow : Option (String → Except String GraphState))
    (rawQuery : Option String) : ChatOutcome :=
  match validateChatRequest rawQuery with
  | none => .validationError
  | some req => chat workflow req

/-! ### Concrete stub environments used to instantiate the theorems -/

/-- Stub: classifier answers `products`, retriever returns one chunk,
generator succeeds with a fixed non-empty answer. -/
def envOkGen : Env :=
  { classify := fun _ => .ok "products"
    retrieve := fun _ _ => .ok [{ page_content := "textA", metadata := "metaA" }]
    generate := fun _ => .ok "All good." }

/-- Stub: generator succeeds but returns the empty string. -/
def envEmptyGen : Env :=
  { classify := fun _ => .ok "products"
    retrieve := fun _ _ => .ok []
    generate := fun _ => .ok "" }

/-- Stub: the classifier invocation raises. -/
def envClsErr : Env :=
  { classify := fun _ => .error "boom"
    retrieve := fun _ _ => .ok []
    generate := fun _ => .ok "x" }

/-- Stub: the classifier returns a value outside the enumeration. -/
def envValFail : Env :=
  { classify := fun _ => .ok "banana"
    retrieve := fun _ _ => .ok []
    generate := fun _ => .ok "x" }

/-- Stub: the retriever raises. -/
def envRetErr : Env :=
  { classify := fun _ => .ok "returns"
    retrieve := fun _ _ => .error "db down"
    generate := fun _ => .ok "x" }

/-- Stub: a call-dependent (nondeterministic) retriever — the first call
returns chunk A, every later call returns chunk B — with an echoing
generator. -/
def envND : Env :=
  { classify := fun _ => .ok "products"
    retrieve := fun n _ =>
      if n = 0 then .ok [{ page_content := "textA", metadata := "metaA" }]
      else .ok [{ page_content := "textB", metadata := "metaB" }]
    generate := fun p => .ok p }

/-! ### Helper lemmas -/

/-- The category produced by `classifier_node`, as a function of the raw
classifier output. -/
lemma classifier_node_category_eq (env : Env) (s : GraphState) :
    (classifier_node env s).category =
      match env.classify (classificationPrompt s.query) with
      | .ok raw =>
          if pyLower (pyStrip raw) ∈ validCategories then pyLower (pyStrip raw)
          else "unknown"
      | .error _ => "unknown" := by
  unfold classifier_node
  cases env.classify (classificationPrompt s.query) <;> simp

/-- `classifier_node` always lands in the four-value enumeration. -/
lemma classifier_node_category_mem (env : Env) (s : GraphState) :
    (classifier_node env s).category ∈ validCategories := by
  rw [classifier_node_category_eq]
  cases env.classify (classificationPrompt s.query) with
  | error e => simp [validCategories]
  | ok raw =>
      by_cases hm : pyLower (pyStrip raw) ∈ validCategories
      · simp [hm]
      · simp only [hm]
        simp [validCategories]

/-- `classifier_node` never touches the query. -/
lemma classifier_node_query (env : Env) (s : GraphState) :
    (classifier_node env s).query = s.query := by
  unfold classifier_node
  cases env.classify (classificationPrompt s.query) <;> simp

/-- Evaluation of `get_context_and_answer` on the all-success path: the
first retrieval (index `n`) supplies the reported context and sources,
the second (index `n + 1`) supplies the context the generator sees, and
two retriever calls are consumed. -/
lemma gca_eq (env : Env) (n : Nat) (q : String) (docs1 docs2 : List Doc)
    (a : String) (h1 : env.retrieve n q = .ok docs1)
    (h2 : env.retrieve (n + 1) q = .ok docs2)
    (h3 : env.generate (ragPrompt (format_docs docs2) q) = .ok a) :
    get_context_and_answer env n q =
      .ok ({ query := q, context := format_docs docs1, answer := a,
             sources := docs1.map (·.metadata) }, n + 2) := by
  have h3' : env.generate
      (ragPrompt (String.intercalate "\n\n" (docs2.map (·.page_content))) q) =
        .ok a := by
    simpa [format_docs] using h3
  simp only [get_context_and_answer, chain_invoke, h1, h2, h3', format_docs]

/-- `get_context_and_answer` fails exactly when one of its three
external calls fails, propagating that call's description. -/
lemma gca_error_cases (env : Env) (n : Nat) (q : String) (e : String)
    (h : env.retrieve n q = .error e ∨
         (∃ docs1, env.retrieve n q = .ok docs1 ∧
            env.retrieve (n + 1) q = .error e) ∨
         (∃ docs1 docs2, env.retrieve n q = .ok docs1 ∧
            env.retrieve (n + 1) q = .ok docs2 ∧
            env.generate (ragPrompt (format_docs docs2) q) = .error e)) :
    get_context_and_answer env n q = .error e := by
  rcases h with h1 | ⟨docs1, h1, h2⟩ | ⟨docs1, docs2, h1, h2, h3⟩
  · simp only [get_context_and_answer, h1]
  · simp only [get_context_and_answer, chain_invoke, h1, h2]
  · simp only [get_context_and_answer, chain_invoke, h1, h2, h3]

/-- When `get_context_and_answer` succeeds, its answer is a successful
output of the generation model (on the context built from the second
retrieval). -/
lemma gca_ok_generate (env : Env) (n : Nat) (q : String) (r : GCAResult)
    (n2 : Nat) (h : get_context_and_answer env n q = .ok (r, n2)) :
    ∃ ctx, env.generate (ragPrompt ctx q) = .ok r.answer := by
  cases h1 : env.retrieve n q with
  | error e =>
      rw [gca_error_cases env n q e (Or.inl h1)] at h
      exact absurd h (by simp)
  | ok docs1 =>
      cases h2 : env.retrieve (n + 1) q with
      | error e =>
          rw [gca_error_cases env n q e (Or.inr (Or.inl ⟨docs1, h1, h2⟩))] at h
          exact absurd h (by simp)
      | ok docs2 =>
          cases h3 : env.generate (ragPrompt (format_docs docs2) q) with
          | error e =>
              rw [gca_error_cases env n q e
                    (Or.inr (Or.inr ⟨docs1, docs2, h1, h2, h3⟩))] at h
              exact absurd h (by simp)
          | ok a =>
              rw [gca_eq env n q docs1 docs2 a h1 h2 h3] at h
              simp only [Except.ok.injEq, Prod.mk.injEq] at h
              obtain ⟨h4, -⟩ := h
              subst h4
              exact ⟨format_docs docs2, h3⟩

/-- `escalation_node` leaves query and category untouched. -/
lemma escalation_node_preserves (s : GraphState) :
    (escalation_node s).query = s.query ∧
    (escalation_node s).category = s.category :=
  ⟨rfl, rfl⟩

/-- `rag_responder_node` leaves query and category untouched. -/
lemma rag_responder_node_preserves (env : Env) (n : Nat) (s : GraphState) :
    (rag_responder_node env n s).1.query = s.query ∧
    (rag_responder_node env n s).1.category = s.category := by
  rcases h : get_context_and_answer env n s.query with e | ⟨r, n2⟩ <;>
    simp [rag_responder_node, h]

/-- The answer set by `rag_responder_node` is either the answer from a
successful `get_context_and_answer` or the fixed fallback. -/
lemma rag_responder_node_answer (env : Env) (n : Nat) (s : GraphState) :
    (∃ r n2, get_context_and_answer env n s.query = .ok (r, n2) ∧
       (rag_responder_node env n s).1.answer = r.answer) ∨
    (rag_responder_node env n s).1.answer = fallbackAnswer := by
  rcases h : get_context_and_answer env n s.query with e | ⟨r, n2⟩
  · right; simp [rag_responder_node, h]
  · left; exact ⟨r, n2, rfl, by simp [rag_responder_node, h]⟩

/-- Unfolding of `RAGWorkflow.invoke` into its three stages. -/
lemma invoke_eq (env : Env) (n : Nat) (q : String) :
    invoke env n q =
      match route_query (classifier_node env (initialState q)) with
      | .rag_responder => rag_responder_node env n (classifier_node env (initialState q))
      | .escalation => (escalation_node (classifier_node env (initialState q)), n) :=
  rfl

/-- A non-empty string passes the pydantic `min_length=1` validation. -/
lemma validateChatRequest_some (q : String) (h : q ≠ "") :
    validateChatRequest (some q) = some { query := q } := by
  have hlen : 1 ≤ q.length := by
    obtain ⟨data⟩ := q
    have hd : data ≠ [] := by
      intro hd
      exact h (by rw [hd])
    have hpos := List.length_pos.mpr hd
    simpa [String.length] using hpos
  simp [validateChatRequest, hlen]

/-- A deterministic (call-index-independent) retriever makes
`get_context_and_answer` independent of the call index, up to the
returned index. -/
lemma gca_det (env : Env) (q : String) (n m : Nat)
    (hdet : ∀ i j, env.retrieve i q = env.retrieve j q) :
    (get_context_and_answer env n q).map Prod.fst =
      (get_context_and_answer env m q).map Prod.fst := by
  have h1 := (hdet n 0)
  have h2 := (hdet (n + 1) 0)
  have h3 := (hdet m 0)
  have h4 := (hdet (m + 1) 0)
  cases h0 : env.retrieve 0 q with
  | error e =>
      simp [get_context_and_answer, chain_invoke, Except.map, h1.trans h0,
        h3.trans h0]
  | ok docs =>
      cases hg : env.generate (ragPrompt (format_docs docs) q) with
      | error e =>
          simp [get_context_and_answer, chain_invoke, Except.map, h1.trans h0,
            h2.trans h0, h3.trans h0, h4.trans h0, hg]
      | ok a =>
          simp [get_context_and_answer, chain_invoke, Except.map, h1.trans h0,
            h2.trans h0, h3.trans h0, h4.trans h0, hg]

/-- With a deterministic retriever, the answer set by
`rag_responder_node` does not depend on the call index. -/
lemma rag_responder_node_answer_det (env : Env) (s : GraphState) (n m : Nat)
    (hdet : ∀ i j, env.retrieve i s.query = env.retrieve j s.query) :
    (rag_responder_node env n s).1.answer =
      (rag_responder_node env m s).1.answer := by
  have hg := gca_det env s.query n m hdet
  rcases hn : get_context_and_answer env n s.query with e | ⟨r, n2⟩ <;>
    rcases hm2 : get_context_and_answer env m s.query with e' | ⟨r', m2⟩ <;>
    rw [hn, hm2] at hg <;> simp [Except.map] at hg <;>
    simp [rag_responder_node, hn, hm2, hg]

/-! ### Claim theorems -/

/-- Claim C2: `route_query` is a pure, total, deterministic function of the
category alone: it selects the `rag_responder` successor exactly when
the category is `"products"` or `"returns"`, and the `escalation`
successor for every other value (including `"general"` and
`"unknown"`); the query, answer and metadata components of the state
play no role and nothing is mutated (the function only returns a
successor name). -/
theorem route_query_spec (q c a : String) (m : MetaDict) :
    route_query { query := q, category := c, answer := a, metadata := m } =
      (if c = "products" ∨ c = "returns" then RouteTarget.rag_responder
       else RouteTarget.escalation) := by
  simp only [route_query, List.mem_cons, List.mem_singleton, List.not_mem_nil,
    or_false]

/-- Claim C3: for every raw classifier output, `classifier_node` normalizes it
(strip whitespace, lowercase) and the resulting category is always one
of `products`, `returns`, `general`, `unknown`; a normalized output
outside that enumeration, and a raised classifier invocation, both
yield `"unknown"` (the node is a total function — no exception
propagates). -/
theorem classifier_node_normalizes (env : Env) (s : GraphState) :
    ((classifier_node env s).category ∈ validCategories) ∧
    ((classifier_node env s).category =
      match env.classify (classificationPrompt s.query) with
      | .ok raw =>
          if pyLower (pyStrip raw) ∈ validCategories then pyLower (pyStrip raw)
          else "unknown"
      | .error _ => "unknown") :=
  ⟨classifier_node_category_mem env s, classifier_node_category_eq env s⟩

/-- Claim C6: `escalation_node` selects between exactly two fixed,
query-independent canned messages as a function of the category alone —
the support-information message for `"general"`, the generic apology
for every other category — sets `metadata["escalation"] = True`, and
both messages contain the support email and the support hours. -/
theorem escalation_node_spec (s : GraphState) :
    ((escalation_node s).answer =
      if s.category = "general" then generalEscalationMessage
      else genericEscalationMessage) ∧
    ((escalation_node s).metadata =
      dictSet s.metadata "escalation" (.bool true)) ∧
    ((escalation_node s).query = s.query) ∧
    (generalEscalationMessage =
      "For general inquiries and support:\n\n📧 Email: " ++
      "support@techgear.com" ++ "\n⏰ Support Hours: " ++
      "Monday-Saturday, 9AM-6PM IST" ++
      "\n\nOur team will be happy to assist you with your questions!") ∧
    (genericEscalationMessage =
      "I apologize, but I'm unable to assist with that specific request.\n\nFor personalized support, please contact our team:\n📧 Email: " ++
      "support@techgear.com" ++ "\n⏰ Support Hours: " ++
      "Monday-Saturday, 9AM-6PM IST" ++
      "\n\nOur support team will be happy to help you!") :=
  ⟨rfl, rfl, rfl, by decide, by decide⟩

/-- Claim C5: in the Respond stage, on success (both retrievals and the
generation succeed) the answer is the generation model's output and
`metadata["rag"]` maps the retrieved chunks' metadata under
`"sources"` with `"context_used"` true, consuming both retriever calls;
on any failure of retrieval or generation the answer is the fixed
apologetic fallback and `metadata["rag"]` records the failure
description under `"error"`. The node is a total Lean function, so no
exception propagates, and it returns a final state (terminal). -/
theorem rag_responder_node_spec (env : Env) (n : Nat) (s : GraphState) :
    (∀ docs1 docs2 ans,
       env.retrieve n s.query = .ok docs1 →
       env.retrieve (n + 1) s.query = .ok docs2 →
       env.generate (ragPrompt (format_docs docs2) s.query) = .ok ans →
       rag_responder_node env n s =
         ({ s with
             answer := ans,
             metadata := dictSet s.metadata "rag"
               (.map [("sources", .strList (docs1.map (·.metadata))),
                      ("context_used", .bool true)]) }, n + 2)) ∧
    (∀ e, (env.retrieve n s.query = .error e ∨
           (∃ docs1, env.retrieve n s.query = .ok docs1 ∧
              env.retrieve (n + 1) s.query = .error e) ∨
           (∃ docs1 docs2, env.retrieve n s.query = .ok docs1 ∧
              env.retrieve (n + 1) s.query = .ok docs2 ∧
              env.generate (ragPrompt (format_docs docs2) s.query) = .error e)) →
       rag_responder_node env n s =
         ({ s with
             answer := fallbackAnswer,
             metadata := dictSet s.metadata "rag"
               (.map [("error", .str e)]) }, n)) := by
  constructor
  · intro docs1 docs2 ans h1 h2 h3
    simp only [rag_responder_node, gca_eq env n s.query docs1 docs2 ans h1 h2 h3]
  · intro e h
    simp only [rag_responder_node, gca_error_cases env n s.query e h]

/-- Witness for C5: a succeeding stub sets the generated answer and the
sources; a failing retriever stub sets the fallback and the error tag. -/
theorem rag_responder_node_spec_witness :
    (rag_responder_node envOkGen 0 (initialState "q") =
      ({ initialState "q" with
           answer := "All good.",
           metadata := [("rag", .map [("sources", .strList ["metaA"]),
                                      ("context_used", .bool true)])] }, 2)) ∧
    (rag_responder_node envRetErr 0 (initialState "q") =
      ({ initialState "q" with
           answer := fallbackAnswer,
           metadata := [("rag", .map [("error", .str "db down")])] }, 0)) := by
  constructor
  · exact (rag_responder_node_spec envOkGen 0 (initialState "q")).1
      [{ page_content := "textA", metadata := "metaA" }]
      [{ page_content := "textA", metadata := "metaA" }] "All good." rfl rfl rfl
  · exact (rag_responder_node_spec envRetErr 0 (initialState "q")).2
      "db down" (Or.inl rfl)

/-- Claim C7: in the Respond path the context handed to the generation model
is the retrieved chunks' texts joined in retrieval order; when
retrieval returns an empty list the context is the empty string and the
generation model is still invoked — the chain's result is exactly the
generator's result on the empty-context prompt, with no short-circuit. -/
theorem chain_empty_retrieval_no_short_circuit (env : Env) (n : Nat)
    (q : String) :
    (format_docs [] = "") ∧
    (∀ d1 d2 : Doc, format_docs [d1, d2] =
       d1.page_content ++ "\n\n" ++ d2.page_content) ∧
    (∀ docs, env.retrieve n q = .ok docs →
       chain_invoke env n q =
         match env.generate (ragPrompt (format_docs docs) q) with
         | .error e => .error e
         | .ok answer => .ok (answer, n + 1)) ∧
    (env.retrieve n q = .ok [] →
       chain_invoke env n q =
         match env.generate (ragPrompt "" q) with
         | .error e => .error e
         | .ok answer => .ok (answer, n + 1)) := by
  refine ⟨by decide, ?_, ?_, ?_⟩
  · intro d1 d2
    simp [format_docs, String.intercalate, String.intercalate.go]
  · intro docs h1
    simp only [chain_invoke, h1]
  · intro h1
    simp only [chain_invoke, h1]
    rfl

/-- Witness for C7: with a retriever stub returning zero chunks and an
echoing generator, the chain still produces the generator's output on
the empty-context prompt. -/
theorem chain_empty_retrieval_witness :
    chain_invoke envEmptyGen 0 "hi" =
      match envEmptyGen.generate (ragPrompt "" "hi") with
      | .error e => .error e
      | .ok answer => .ok (answer, 1) :=
  (chain_empty_retrieval_no_short_circuit envEmptyGen 0 "hi").2.2.2 rfl

/-- Claim C1 counterexample: a generator stub that succeeds with the empty
string makes `invoke` return an empty `answer` (the code passes the
generator's output through unexamined), refuting the claim that the
answer is non-empty for arbitrary collaborator output. -/
theorem invoke_empty_answer_counterexample :
    (invoke envEmptyGen 0 "hi").1.answer = "" ∧
    (invoke envEmptyGen 0 "hi").1.category = "products" := by
  constructor <;> rfl

/-- Claim C1 (amended): `invoke` is a total function (never raises) and always
returns a turn result whose query is the input query and whose category
is populated with one of the four enumeration values; the answer is
non-empty provided every successful generator output is non-empty — in
particular on every failure path and on the escalation path. (Without
that proviso an empty successful generator output is passed through,
see the counterexample.) -/
theorem invoke_wellformed (env : Env) (n : Nat) (q : String)
    (hgen : ∀ p a, env.generate p = .ok a → a ≠ "") :
    ((invoke env n q).1.category ∈ validCategories) ∧
    ((invoke env n q).1.answer ≠ "") ∧
    ((invoke env n q).1.query = q) := by
  rw [invoke_eq]
  cases hroute : route_query (classifier_node env (initialState q)) with
  | escalation =>
      refine ⟨?_, ?_, ?_⟩
      · rw [(escalation_node_preserves _).2]
        exact classifier_node_category_mem env (initialState q)
      · show (escalation_node _).answer ≠ ""
        unfold escalation_node
        split
        · show generalEscalationMessage ≠ ""
          decide
        · show genericEscalationMessage ≠ ""
          decide
      · rw [(escalation_node_preserves _).1]
        exact classifier_node_query env (initialState q)
  | rag_responder =>
      refine ⟨?_, ?_, ?_⟩
      · rw [(rag_responder_node_preserves env n _).2]
        exact classifier_node_category_mem env (initialState q)
      · rcases rag_responder_node_answer env n
          (classifier_node env (initialState q)) with ⟨r, n2, hok, hans⟩ | hfb
        · rw [hans]
          obtain ⟨ctx, hctx⟩ := gca_ok_generate env n _ r n2 hok
          exact hgen _ _ hctx
        · rw [hfb]; decide
      · rw [(rag_responder_node_preserves env n _).1]
        exact classifier_node_query env (initialState q)

/-- Witness for C1 (amended): with an all-success stub whose generator
output is a fixed non-empty string, the turn result is well-formed. -/
theorem invoke_wellformed_witness :
    ((invoke envOkGen 0 "hi").1.category ∈ validCategories) ∧
    ((invoke envOkGen 0 "hi").1.answer ≠ "") ∧
    ((invoke envOkGen 0 "hi").1.query = "hi") :=
  invoke_wellformed envOkGen 0 "hi" (by
    intro p a h
    injection h with h2
    subst h2
    decide)

/-- Claim C4 counterexample: on an invocation failure `classifier_node` stores
the plain string `"error"` under the `"classifier"` key — not a mapping
with an error entry; the exception description lives under a separate
top-level `"error"` key. And on a validation failure (raw output
outside the enumeration) the metadata records `"success"` with no
failure reason at all. -/
theorem classifier_metadata_counterexample :
    ((classifier_node envClsErr (initialState "hi")).metadata =
       [("classifier", MetaVal.str "error"), ("error", MetaVal.str "boom")]) ∧
    (¬ ∃ m, dictGet (classifier_node envClsErr (initialState "hi")).metadata
        "classifier" = some (MetaVal.map m)) ∧
    ((classifier_node envValFail (initialState "hi")).category = "unknown") ∧
    ((classifier_node envValFail (initialState "hi")).metadata =
       [("classifier", MetaVal.str "success")]) := by
  refine ⟨rfl, ?_, rfl, rfl⟩
  rintro ⟨m, hm⟩
  rw [show dictGet (classifier_node envClsErr (initialState "hi")).metadata
        "classifier" = some (MetaVal.str "error") from rfl] at hm
  injection hm with h
  exact MetaVal.noConfusion h

/-- Claim C4 (amended): on an invocation failure `classifier_node` forces the
category to `"unknown"` and records the metadata
`{"classifier": "error", "error": <description>}` — the failure kind as
the string `"error"` under the `"classifier"` key and the exception
description under a separate top-level `"error"` key; on a validation
failure it forces the category to `"unknown"` but records
`{"classifier": "success"}`, with no failure reason. -/
theorem classifier_failure_metadata (env : Env) (s : GraphState) :
    (∀ e, env.classify (classificationPrompt s.query) = .error e →
       (classifier_node env s).category = "unknown" ∧
       (classifier_node env s).metadata =
         [("classifier", .str "error"), ("error", .str e)]) ∧
    (∀ raw, env.classify (classificationPrompt s.query) = .ok raw →
       pyLower (pyStrip raw) ∉ validCategories →
       (classifier_node env s).category = "unknown" ∧
       (classifier_node env s).metadata =
         [("classifier", .str "success")]) := by
  constructor
  · intro e h
    simp [classifier_node, h]
  · intro raw h hm
    simp [classifier_node, h, hm]

/-- Witness for C4 (amended): a raising classifier stub and an
out-of-enumeration classifier stub, evaluated concretely. -/
theorem classifier_failure_metadata_witness :
    ((classifier_node envClsErr (initialState "w")).category = "unknown" ∧
     (classifier_node envClsErr (initialState "w")).metadata =
       [("classifier", MetaVal.str "error"), ("error", MetaVal.str "boom")]) ∧
    ((classifier_node envValFail (initialState "w")).category = "unknown" ∧
     (classifier_node envValFail (initialState "w")).metadata =
       [("classifier", MetaVal.str "success")]) :=
  ⟨(classifier_failure_metadata envClsErr (initialState "w")).1 "boom" rfl,
   (classifier_failure_metadata envValFail (initialState "w")).2 "banana" rfl
     (by decide)⟩

/-- Claim C8: the request boundary rejects a missing or empty query with a
client-error validation status independent of (and before reaching) the
workflow; an uninitialized workflow yields 503; an exception escaping
the workflow yields 500 carrying its description; a successful workflow
run yields the wrapped turn result — and these are the only outcomes. -/
theorem chat_boundary_spec :
    (∀ wf, chatEndpoint wf none = .validationError) ∧
    (∀ wf, chatEndpoint wf (some "") = .validationError) ∧
    (∀ q, q ≠ "" → chatEndpoint none (some q) =
       .httpError 503
         "Chatbot service is not initialized. Please try again later.") ∧
    (∀ wf q e, q ≠ "" → wf q = .error e →
       chatEndpoint (some wf) (some q) =
         .httpError 500 ("Error processing query: " ++ e)) ∧
    (∀ wf q r, q ≠ "" → wf q = .ok r →
       chatEndpoint (some wf) (some q) =
         .ok { query := r.query, answer := r.answer,
               category := some r.category,
               metadata := some r.metadata }) := by
  refine ⟨fun wf => rfl, fun wf => rfl, ?_, ?_, ?_⟩
  · intro q hq
    simp only [chatEndpoint, validateChatRequest_some q hq, chat]
  · intro wf q e hq hwf
    simp only [chatEndpoint, validateChatRequest_some q hq, chat, hwf]
  · intro wf q r hq hwf
    simp only [chatEndpoint, validateChatRequest_some q hq, chat, hwf]

/-- Witness for C8: the three outcome kinds at concrete inputs —
uninitialized workflow, raising workflow, succeeding workflow. -/
theorem chat_boundary_spec_witness :
    (chatEndpoint none (some "hi") =
       .httpError 503
         "Chatbot service is not initialized. Please try again later.") ∧
    (chatEndpoint (some fun _ => Except.error "boom") (some "hi") =
       .httpError 500 ("Error processing query: " ++ "boom")) ∧
    (chatEndpoint (some fun q => Except.ok (initialState q)) (some "hi") =
       .ok { query := "hi", answer := "", category := some "",
             metadata := some [] }) :=
  ⟨chat_boundary_spec.2.2.1 "hi" (by decide),
   chat_boundary_spec.2.2.2.1 (fun _ => Except.error "boom") "hi" "boom"
     (by decide) rfl,
   chat_boundary_spec.2.2.2.2 (fun q => Except.ok (initialState q)) "hi"
     (initialState "hi") (by decide) rfl⟩

/-- Claim C9: for a fixed environment whose retriever is deterministic
(call-index-independent) — the classifier and generator are plain
functions, hence already deterministic — two invocations of the
workflow on the same query yield the same category and the same answer,
whatever retriever call indices the two runs start at: the workflow
adds no nondeterminism of its own. -/
theorem invoke_idempotent (env : Env) (q : String) (n m : Nat)
    (hdet : ∀ i j, env.retrieve i q = env.retrieve j q) :
    ((invoke env n q).1.category = (invoke env m q).1.category) ∧
    ((invoke env n q).1.answer = (invoke env m q).1.answer) := by
  rw [invoke_eq, invoke_eq]
  cases hroute : route_query (classifier_node env (initialState q)) with
  | escalation => exact ⟨rfl, rfl⟩
  | rag_responder =>
      constructor
      · rw [(rag_responder_node_preserves env n _).2,
            (rag_responder_node_preserves env m _).2]
      · have hq : (classifier_node env (initialState q)).query = q :=
          classifier_node_query env (initialState q)
        exact rag_responder_node_answer_det env _ n m
          (fun i j => by rw [hq]; exact hdet i j)

/-- Witness for C9: the deterministic all-success stub gives the same
category and answer for two runs starting at different call indices. -/
theorem invoke_idempotent_witness :
    ((invoke envOkGen 0 "hi").1.category =
       (invoke envOkGen 5 "hi").1.category) ∧
    ((invoke envOkGen 0 "hi").1.answer = (invoke envOkGen 5 "hi").1.answer) :=
  invoke_idempotent envOkGen "hi" 0 5 (fun _ _ => rfl)

/-- Claim C10: `get_context_and_answer` performs two retrievals per query —
the first (index `n`) produces the reported sources and context, the
chain's own retrieval (index `n + 1`) builds the context actually given
to the generator, and the call counter advances by two. With a
deterministic retriever the generator's context is exactly the text of
the chunks whose metadata are reported as sources; the nondeterministic
stub `envND` shows the two retrievals can differ — the reported source
is chunk A's metadata while the echoed answer reveals the generator saw
chunk B's text. -/
theorem double_retrieval (env : Env) (n : Nat) (q : String) :
    (∀ docs1 docs2 a,
       env.retrieve n q = .ok docs1 →
       env.retrieve (n + 1) q = .ok docs2 →
       env.generate (ragPrompt (format_docs docs2) q) = .ok a →
       get_context_and_answer env n q =
         .ok ({ query := q, context := format_docs docs1, answer := a,
                sources := docs1.map (·.metadata) }, n + 2)) ∧
    ((∀ i j, env.retrieve i q = env.retrieve j q) →
       ∀ docs a, env.retrieve n q = .ok docs →
         env.generate (ragPrompt (format_docs docs) q) = .ok a →
         get_context_and_answer env n q =
           .ok ({ query := q, context := format_docs docs, answer := a,
                  sources := docs.map (·.metadata) }, n + 2)) ∧
    (get_context_and_answer envND 0 "q" =
       .ok ({ query := "q", context := "textA",
              answer := ragPrompt "textB" "q",
              sources := ["metaA"] }, 2)) ∧
    (envND.retrieve 0 "q" ≠ envND.retrieve 1 "q") := by
  refine ⟨?_, ?_, ?_, ?_⟩
  · intro docs1 docs2 a h1 h2 h3
    exact gca_eq env n q docs1 docs2 a h1 h2 h3
  · intro hdet docs a h1 h3
    exact gca_eq env n q docs docs a h1 ((hdet (n + 1) n).trans h1) h3
  · rfl
  · intro hcontra
    simp [envND] at hcontra

/-- Witness for C10: the double-retrieval evaluation applied to the
nondeterministic stub at a concrete query. -/
theorem double_retrieval_witness :
    get_context_and_answer envND 0 "w" =
      .ok ({ query := "w",
             context :=
               format_docs [{ page_content := "textA", metadata := "metaA" }],
             answer :=
               ragPrompt
                 (format_docs [{ page_content := "textB", metadata := "metaB" }])
                 "w",
             sources := ["metaA"] }, 2) :=
  (double_retrieval envND 0 "w").1
    [{ page_content := "textA", metadata := "metaA" }]
    [{ page_content := "textB", metadata := "metaB" }]
    (ragPrompt
      (format_docs [{ page_content := "textB", metadata := "metaB" }]) "w")
    rfl rfl rfl

end RAG
